import Mathlib

/-
Verification of the playback-state coordinator of faraasaaay/chat_app.

Shallow embedding of src/contexts/AudioPlayerContext.tsx (the provider's
state and operations) and of the mini-player visibility condition of
src/app/_layout.tsx.

Modelling conventions:
- A `DownloadedSong` is reduced to the two fields the coordinator reads:
  `id` (compared by `findIndex(song => song.id === currentSong.id)`) and
  `filePath` (passed to the native loader).
- The opaque native sound engine is represented by an oracle `NativeEnv`
  of success flags, one per native call site; a native playback handle is
  a `Nat` ticket, and the set of currently loaded native handles is
  tracked in the state (`loaded`) so resource claims can be stated.
- Millisecond positions and durations are `Nat` (the native API reports
  non-negative millisecond values); `durationMillis` is optional and the
  code reads it as `status.durationMillis || 0`.
- Each async operation is a pure state transformer together with a
  `threw` flag: `threw = true` means the returned promise rejected (an
  uncaught exception propagated to the caller).  A try/catch block that
  only logs is modelled by returning the state reached before the throw
  with `threw = false`.
- React state setters are modelled as sequential field updates: the
  status-update and navigation paths never re-read a field they have
  already written in the same tick.  The `useEffect` that copies a
  non-empty `playlist` into `masterPlaylist` (lines 102-106) is folded
  into every playlist assignment (`assignPlaylist`).
-/

namespace AudioPlayer

/-- A downloaded song as the coordinator sees it: an id (used for index
lookup by `findIndex`) and a local file path (handed to the native
loader). -/
structure Song where
  id : Nat
  filePath : String
deriving DecidableEq, Repr

/-- The fields of expo-av's `AVPlaybackStatus` that `updatePlaybackStatus`
reads.  `durationMillis` is optional in the native API. -/
structure AVPlaybackStatus where
  isLoaded : Bool
  isPlaying : Bool
  positionMillis : Nat
  durationMillis : Option Nat
  didJustFinish : Bool
deriving DecidableEq, Repr

/-- Success oracle for the native sound-engine calls: one flag per call
site.  `false` means that native call throws when reached. -/
structure NativeEnv where
  unloadOk : Bool
  createOk : Bool
  pauseOk : Bool
  playOk : Bool
  setPositionOk : Bool
  stopOk : Bool
deriving DecidableEq, Repr

/-- The provider's React state (lines 26-32), extended with the set of
currently loaded native handles and a fresh-handle counter so that
resource usage is observable. -/
structure PlayerState where
  currentSong : Option Song
  isPlaying : Bool
  duration : Nat
  position : Nat
  playbackInstance : Option Nat
  playlist : List Song
  masterPlaylist : List Song
  loaded : List Nat
  nextHandle : Nat
deriving DecidableEq, Repr

/-- Result of one async operation: the state it leaves behind and whether
it propagated an exception to its caller. -/
structure OpResult where
  state : PlayerState
  threw : Bool
deriving DecidableEq, Repr

/-- JS `Array.prototype.findIndex` specialised to matching a song id:
first index whose song has the given id; the JS result -1 is modelled as
`none`. -/
def findSongIndex (l : List Song) (i : Nat) : Option Nat :=
  match l with
  | [] => none
  | x :: xs => if x.id = i then some 0 else (findSongIndex xs i).map (· + 1)

/-- getEffectivePlaylist (lines 178-181): the current playlist if it has
songs, otherwise the master playlist. -/
def getEffectivePlaylist (s : PlayerState) : List Song :=
  if s.playlist.length > 0 then s.playlist else s.masterPlaylist

/-- getCurrentSongIndex (lines 161-176): look in the current playlist
first (when non-empty); on a miss fall back to the master playlist (when
non-empty); JS -1 is `none`. -/
def getCurrentSongIndex (s : PlayerState) : Option Nat :=
  match s.currentSong with
  | none => none
  | some cur =>
    let fromPlaylist :=
      if s.playlist.length > 0 then findSongIndex s.playlist cur.id else none
    match fromPlaylist with
    | some i => some i
    | none =>
      if s.masterPlaylist.length > 0 then findSongIndex s.masterPlaylist cur.id
      else none

/-- An assignment to the `playlist` state, with the sync effect of lines
102-106 folded in: whenever the assigned list is non-empty it is also
copied into `masterPlaylist`. -/
def assignPlaylist (l : List Song) (s : PlayerState) : PlayerState :=
  let s1 := { s with playlist := l }
  if l.length > 0 then { s1 with masterPlaylist := l } else s1

/-- The body of playSong after the unload of the previous instance
(lines 115-129): restore the playlist from the master playlist when the
former is empty and the latter is not, then ask the native engine to
create and start a new sound.  On create failure the catch block only
logs, so the restore (which already ran) is kept. -/
def playSongLoad (env : NativeEnv) (song : Song) (s : PlayerState) : OpResult :=
  let s1 :=
    if s.playlist.length = 0 ∧ s.masterPlaylist.length > 0 then
      assignPlaylist s.masterPlaylist s
    else s
  if env.createOk then
    { state :=
        { s1 with
          loaded := s1.loaded ++ [s1.nextHandle]
          nextHandle := s1.nextHandle + 1
          playbackInstance := some s1.nextHandle
          currentSong := some song
          isPlaying := true }
      threw := false }
  else { state := s1, threw := false }

/-- playSong (lines 108-133): unload the previous instance when one
exists, then load and start the new song.  The whole body is inside
try/catch, so errors are logged and never propagated; an unload failure
aborts the body before the restore and the create. -/
def playSong (env : NativeEnv) (song : Song) (s : PlayerState) : OpResult :=
  match s.playbackInstance with
  | some h =>
    if env.unloadOk then
      playSongLoad env song { s with loaded := s.loaded.erase h }
    else { state := s, threw := false }
  | none => playSongLoad env song s

/-- pauseSong (lines 135-143): a guarded native pause inside try/catch.
It writes no React state (the pause is reflected later through a status
update), and a native failure is logged and swallowed. -/
def pauseSong (_env : NativeEnv) (s : PlayerState) : OpResult :=
  { state := s, threw := false }

/-- resumeSong (lines 145-153): a guarded native play inside try/catch;
like pauseSong it writes no React state and swallows failures. -/
def resumeSong (_env : NativeEnv) (s : PlayerState) : OpResult :=
  { state := s, threw := false }

/-- seekTo (lines 155-159): a guarded native setPositionAsync with NO
try/catch, so when an instance exists and the native call fails the error
propagates.  It writes no React state (the position field is refreshed by
status updates). -/
def seekTo (env : NativeEnv) (_p : Nat) (s : PlayerState) : OpResult :=
  match s.playbackInstance with
  | some _ =>
    if env.setPositionOk then { state := s, threw := false }
    else { state := s, threw := true }
  | none => { state := s, threw := false }

/-- playNextSong (lines 183-192): resolve the effective playlist and the
current index, return silently when either is missing, else play the song
at the wrapped next index. -/
def playNextSong (env : NativeEnv) (s : PlayerState) : OpResult :=
  let eff := getEffectivePlaylist s
  if eff.length = 0 then { state := s, threw := false }
  else
    match getCurrentSongIndex s with
    | none => { state := s, threw := false }
    | some i => playSong env (eff.getD ((i + 1) % eff.length) ⟨0, ""⟩) s

/-- playPreviousSong (lines 194-203): like playNextSong with the wrapped
previous index.  JS computes `(i - 1 + length) % length` over integers;
with `i : Nat` and a non-empty list this equals `(i + length - 1) %
length`, which stays in `Nat`. -/
def playPreviousSong (env : NativeEnv) (s : PlayerState) : OpResult :=
  let eff := getEffectivePlaylist s
  if eff.length = 0 then { state := s, threw := false }
  else
    match getCurrentSongIndex s with
    | none => { state := s, threw := false }
    | some i => playSong env (eff.getD ((i + eff.length - 1) % eff.length) ⟨0, ""⟩) s

/-- stopSong (lines 205-215): when an instance exists, native stop and
unload (NO try/catch: a failure of either call propagates before any
setter runs), then reset instance, current song, playing flag, position
and duration.  Both playlists are untouched. -/
def stopSong (env : NativeEnv) (s : PlayerState) : OpResult :=
  match s.playbackInstance with
  | some h =>
    if env.stopOk ∧ env.unloadOk then
      { state :=
          { s with
            loaded := s.loaded.erase h
            playbackInstance := none
            currentSong := none
            isPlaying := false
            position := 0
            duration := 0 }
        threw := false }
    else { state := s, threw := true }
  | none =>
    { state :=
        { s with currentSong := none, isPlaying := false, position := 0, duration := 0 }
      threw := false }

/-- stopSongAndClear (lines 217-219): literally `await stopSong()`. -/
def stopSongAndClear (env : NativeEnv) (s : PlayerState) : OpResult :=
  stopSong env s

/-- setPlaylistWithMaster (lines 221-226), the `setPlaylist` exposed by
the provider: assign the playlist and, when non-empty, the master
playlist as well (the sync effect makes the same update). -/
def setPlaylistWithMaster (songs : List Song) (s : PlayerState) : PlayerState :=
  assignPlaylist songs s

/-- updatePlaybackStatus (lines 78-89): ignore statuses of an unloaded
instance; otherwise copy playing flag, duration (`durationMillis || 0`)
and position from the status, and fire playNextSong when the track just
finished. -/
def updatePlaybackStatus (env : NativeEnv) (st : AVPlaybackStatus) (s : PlayerState) :
    OpResult :=
  if st.isLoaded then
    let s1 :=
      { s with
        isPlaying := st.isPlaying
        duration := st.durationMillis.getD 0
        position := st.positionMillis }
    if st.didJustFinish then playNextSong env s1
    else { state := s1, threw := false }
  else { state := s, threw := false }

/-- One externally triggered operation of the provider, carrying the
native-call outcomes for this step. -/
inductive Op where
  | play (env : NativeEnv) (song : Song)
  | pause (env : NativeEnv)
  | resume (env : NativeEnv)
  | seek (env : NativeEnv) (p : Nat)
  | next (env : NativeEnv)
  | prev (env : NativeEnv)
  | stop (env : NativeEnv)
  | stopClear (env : NativeEnv)
  | setPl (songs : List Song)
  | status (env : NativeEnv) (st : AVPlaybackStatus)
deriving DecidableEq, Repr

/-- The state left behind by one operation (a rejected promise leaves the
state reached before the throw). -/
def step (s : PlayerState) (op : Op) : PlayerState :=
  match op with
  | .play env song => (playSong env song s).state
  | .pause env => (pauseSong env s).state
  | .resume env => (resumeSong env s).state
  | .seek env p => (seekTo env p s).state
  | .next env => (playNextSong env s).state
  | .prev env => (playPreviousSong env s).state
  | .stop env => (stopSong env s).state
  | .stopClear env => (stopSongAndClear env s).state
  | .setPl songs => setPlaylistWithMaster songs s
  | .status env st => (updatePlaybackStatus env st s).state

/-- Run a sequence of operations. -/
def run (s : PlayerState) : List Op → PlayerState
  | [] => s
  | op :: ops => run (step s op) ops

/-- The provider's initial state (lines 26-32): nothing playing, both
playlists empty, no native handle loaded. -/
def initState : PlayerState :=
  { currentSong := none
    isPlaying := false
    duration := 0
    position := 0
    playbackInstance := none
    playlist := []
    masterPlaylist := []
    loaded := []
    nextHandle := 0 }

/-- The playlist values assigned by a run of playSong from state `s`: the
restore of line 117 when its guard holds and the unload did not abort the
body. -/
def playSongAssigned (env : NativeEnv) (s : PlayerState) : List (List Song) :=
  let body :=
    if s.playlist.length = 0 ∧ s.masterPlaylist.length > 0 then [s.masterPlaylist]
    else []
  match s.playbackInstance with
  | some _ => if env.unloadOk then body else []
  | none => body

/-- The playlist values assigned by playNextSong / playPreviousSong from
state `s` (both have the same guards before delegating to playSong). -/
def navAssigned (env : NativeEnv) (s : PlayerState) : List (List Song) :=
  if (getEffectivePlaylist s).length = 0 then []
  else
    match getCurrentSongIndex s with
    | none => []
    | some _ => playSongAssigned env s

/-- All values assigned to the `playlist` state during one operation from
state `s`, in program order. -/
def assignedPlaylists (s : PlayerState) (op : Op) : List (List Song) :=
  match op with
  | .play env _ => playSongAssigned env s
  | .next env => navAssigned env s
  | .prev env => navAssigned env s
  | .setPl songs => [songs]
  | .status env st =>
    if st.isLoaded ∧ st.didJustFinish then
      navAssigned env
        { s with
          isPlaying := st.isPlaying
          duration := st.durationMillis.getD 0
          position := st.positionMillis }
    else []
  | _ => []

/-- All values assigned to the `playlist` state during a run, in order. -/
def assignedAll (s : PlayerState) : List Op → List (List Song)
  | [] => []
  | op :: ops => assignedPlaylists s op ++ assignedAll (step s op) ops

/-- Fold that keeps the last non-empty list, starting from `acc`. -/
def lastNonEmptyFrom (acc : List Song) (ls : List (List Song)) : List Song :=
  ls.foldl (fun a l => if l.length > 0 then l else a) acc

/-- Well-formedness of one operation's status payload: a loaded status
reports a position within the reported duration. -/
def statusBounded (op : Op) : Prop :=
  match op with
  | .status _ st => st.isLoaded = true → st.positionMillis ≤ st.durationMillis.getD 0
  | _ => True

instance : DecidablePred statusBounded := by
  intro op
  cases op <;> simp [statusBounded] <;> infer_instance

/-- Resource invariant on native handles: at most one is loaded, and a
loaded one is exactly the handle the provider holds. -/
def handleInv (s : PlayerState) : Prop :=
  s.loaded.length ≤ 1 ∧ ∀ h ∈ s.loaded, s.playbackInstance = some h

/-- Mini-player overlay condition of src/app/_layout.tsx lines 107-120:
`currentSong && currentRoute !== '/player'`. -/
def miniPlayerVisible (cs : Option Song) (route : String) : Bool :=
  cs.isSome && route != "/player"

/-- A native environment in which every call succeeds. -/
def envOk : NativeEnv :=
  { unloadOk := true, createOk := true, pauseOk := true, playOk := true,
    setPositionOk := true, stopOk := true }

/-- A native environment whose setPositionAsync call fails. -/
def envSeekFail : NativeEnv := { envOk with setPositionOk := false }

/-- A native environment whose stopAsync call fails. -/
def envStopFail : NativeEnv := { envOk with stopOk := false }

/-- Sample songs for concrete evaluations. -/
def songA : Song := ⟨1, "a.mp3"⟩

def songB : Song := ⟨2, "b.mp3"⟩

def songC : Song := ⟨3, "c.mp3"⟩

/-- A concrete mid-playback state: three-song playlist, second song
current, handle 0 loaded. -/
def sampleState : PlayerState :=
  { currentSong := some songB
    isPlaying := true
    duration := 1000
    position := 100
    playbackInstance := some 0
    playlist := [songA, songB, songC]
    masterPlaylist := [songA, songB, songC]
    loaded := [0]
    nextHandle := 1 }

/-- `sampleState` after the active playlist was cleared. -/
def clearedState : PlayerState := { sampleState with playlist := [] }

/-- A loaded status whose position exceeds its (absent) duration. -/
def overrunStatus : AVPlaybackStatus :=
  { isLoaded := true, isPlaying := true, positionMillis := 5,
    durationMillis := none, didJustFinish := false }

/-- A loaded, in-bounds status. -/
def boundedStatus : AVPlaybackStatus :=
  { isLoaded := true, isPlaying := true, positionMillis := 3,
    durationMillis := some 10, didJustFinish := false }

/-- A loaded status reporting that the track just finished. -/
def finishedStatus : AVPlaybackStatus :=
  { isLoaded := true, isPlaying := false, positionMillis := 1000,
    durationMillis := some 1000, didJustFinish := true }

/-- An unloaded status. -/
def unloadedStatus : AVPlaybackStatus :=
  { isLoaded := false, isPlaying := false, positionMillis := 7,
    durationMillis := some 2, didJustFinish := true }

section Theorems

/-- Projection facts for assignPlaylist: only the playlists change. -/
@[simp] theorem assignPlaylist_playlist (l : List Song) (s : PlayerState) :
    (assignPlaylist l s).playlist = l := by
  simp only [assignPlaylist]; split_ifs <;> rfl

@[simp] theorem assignPlaylist_masterPlaylist (l : List Song) (s : PlayerState) :
    (assignPlaylist l s).masterPlaylist =
      if l.length > 0 then l else s.masterPlaylist := by
  simp only [assignPlaylist]; split_ifs <;> rfl

@[simp] theorem assignPlaylist_currentSong (l : List Song) (s : PlayerState) :
    (assignPlaylist l s).currentSong = s.currentSong := by
  simp only [assignPlaylist]; split_ifs <;> rfl

@[simp] theorem assignPlaylist_isPlaying (l : List Song) (s : PlayerState) :
    (assignPlaylist l s).isPlaying = s.isPlaying := by
  simp only [assignPlaylist]; split_ifs <;> rfl

@[simp] theorem assignPlaylist_position (l : List Song) (s : PlayerState) :
    (assignPlaylist l s).position = s.position := by
  simp only [assignPlaylist]; split_ifs <;> rfl

@[simp] theorem assignPlaylist_duration (l : List Song) (s : PlayerState) :
    (assignPlaylist l s).duration = s.duration := by
  simp only [assignPlaylist]; split_ifs <;> rfl

@[simp] theorem assignPlaylist_playbackInstance (l : List Song) (s : PlayerState) :
    (assignPlaylist l s).playbackInstance = s.playbackInstance := by
  simp only [assignPlaylist]; split_ifs <;> rfl

@[simp] theorem assignPlaylist_loaded (l : List Song) (s : PlayerState) :
    (assignPlaylist l s).loaded = s.loaded := by
  simp only [assignPlaylist]; split_ifs <;> rfl

@[simp] theorem assignPlaylist_nextHandle (l : List Song) (s : PlayerState) :
    (assignPlaylist l s).nextHandle = s.nextHandle := by
  simp only [assignPlaylist]; split_ifs <;> rfl

/-- Projection facts for playSongLoad. -/
@[simp] theorem playSongLoad_threw (env : NativeEnv) (song : Song) (s : PlayerState) :
    (playSongLoad env song s).threw = false := by
  simp only [playSongLoad]; split_ifs <;> rfl

@[simp] theorem playSongLoad_currentSong (env : NativeEnv) (song : Song) (s : PlayerState) :
    (playSongLoad env song s).state.currentSong =
      if env.createOk then some song else s.currentSong := by
  simp only [playSongLoad]; split_ifs <;> simp

@[simp] theorem playSongLoad_isPlaying (env : NativeEnv) (song : Song) (s : PlayerState) :
    (playSongLoad env song s).state.isPlaying =
      if env.createOk then true else s.isPlaying := by
  simp only [playSongLoad]; split_ifs <;> simp

@[simp] theorem playSongLoad_position (env : NativeEnv) (song : Song) (s : PlayerState) :
    (playSongLoad env song s).state.position = s.position := by
  simp only [playSongLoad]; split_ifs <;> simp

@[simp] theorem playSongLoad_duration (env : NativeEnv) (song : Song) (s : PlayerState) :
    (playSongLoad env song s).state.duration = s.duration := by
  simp only [playSongLoad]; split_ifs <;> simp

@[simp] theorem playSongLoad_masterPlaylist (env : NativeEnv) (song : Song) (s : PlayerState) :
    (playSongLoad env song s).state.masterPlaylist = s.masterPlaylist := by
  simp only [playSongLoad]; split_ifs <;> simp

@[simp] theorem playSongLoad_playbackInstance (env : NativeEnv) (song : Song)
    (s : PlayerState) :
    (playSongLoad env song s).state.playbackInstance =
      if env.createOk then some s.nextHandle else s.playbackInstance := by
  simp only [playSongLoad]; split_ifs <;> simp

@[simp] theorem playSongLoad_loaded (env : NativeEnv) (song : Song) (s : PlayerState) :
    (playSongLoad env song s).state.loaded =
      if env.createOk then s.loaded ++ [s.nextHandle] else s.loaded := by
  simp only [playSongLoad]; split_ifs <;> simp

/-- playSong never moves the position or duration fields. -/
theorem playSong_position_duration (env : NativeEnv) (song : Song) (s : PlayerState) :
    (playSong env song s).state.position = s.position ∧
      (playSong env song s).state.duration = s.duration := by
  cases hpi : s.playbackInstance <;> simp [playSong, hpi]
  split_ifs <;> simp

/-- playNextSong never moves the position or duration fields. -/
theorem playNextSong_position_duration (env : NativeEnv) (s : PlayerState) :
    (playNextSong env s).state.position = s.position ∧
      (playNextSong env s).state.duration = s.duration := by
  by_cases h : (getEffectivePlaylist s).length = 0
  · simp [playNextSong, h]
  · cases hidx : getCurrentSongIndex s with
    | none => simp [playNextSong, h, hidx]
    | some i =>
      simpa [playNextSong, h, hidx] using playSong_position_duration env _ s

/-- playPreviousSong never moves the position or duration fields. -/
theorem playPreviousSong_position_duration (env : NativeEnv) (s : PlayerState) :
    (playPreviousSong env s).state.position = s.position ∧
      (playPreviousSong env s).state.duration = s.duration := by
  by_cases h : (getEffectivePlaylist s).length = 0
  · simp [playPreviousSong, h]
  · cases hidx : getCurrentSongIndex s with
    | none => simp [playPreviousSong, h, hidx]
    | some i =>
      simpa [playPreviousSong, h, hidx] using playSong_position_duration env _ s

/-- findSongIndex finds nothing exactly when no element has the id. -/
theorem findSongIndex_eq_none (l : List Song) (i : Nat) :
    findSongIndex l i = none ↔ ∀ t ∈ l, t.id ≠ i := by
  induction l with
  | nil => simp [findSongIndex]
  | cons x xs ih =>
    by_cases hx : x.id = i
    · simp [findSongIndex, hx]
    · simp [findSongIndex, hx, Option.map_eq_none', ih]

/-- A successful findSongIndex needs a non-empty list. -/
theorem findSongIndex_some_ne_nil (l : List Song) (i j : Nat)
    (h : findSongIndex l i = some j) : l.length ≠ 0 := by
  cases l with
  | nil => simp [findSongIndex] at h
  | cons x xs => simp

/-- getCurrentSongIndex resolves to none when there is no current song or
its id occurs in neither playlist. -/
theorem getCurrentSongIndex_eq_none (s : PlayerState)
    (h : s.currentSong = none ∨
      ∃ song, s.currentSong = some song ∧ (∀ t ∈ s.playlist, t.id ≠ song.id) ∧
        ∀ t ∈ s.masterPlaylist, t.id ≠ song.id) :
    getCurrentSongIndex s = none := by
  rcases h with h | ⟨song, hcur, hp, hm⟩
  · simp [getCurrentSongIndex, h]
  · have h1 : findSongIndex s.playlist song.id = none := (findSongIndex_eq_none _ _).2 hp
    have h2 : findSongIndex s.masterPlaylist song.id = none :=
      (findSongIndex_eq_none _ _).2 hm
    simp [getCurrentSongIndex, hcur, h1, h2]

/-- When the current song is found in the effective playlist, that is the
index getCurrentSongIndex reports. -/
theorem getCurrentSongIndex_of_find (s : PlayerState) (song : Song) (i : Nat)
    (hcur : s.currentSong = some song)
    (hfind : findSongIndex (getEffectivePlaylist s) song.id = some i) :
    getCurrentSongIndex s = some i := by
  unfold getEffectivePlaylist at hfind
  by_cases hp : s.playlist.length > 0
  · rw [if_pos hp] at hfind
    simp [getCurrentSongIndex, hcur, hp, hfind]
  · rw [if_neg hp] at hfind
    have hm : s.masterPlaylist.length ≠ 0 := findSongIndex_some_ne_nil _ _ _ hfind
    simp [getCurrentSongIndex, hcur, hp, hfind, Nat.pos_of_ne_zero hm]

/-- With a working unload and create, playSong makes its argument the
current song and sets the playing flag. -/
theorem playSong_plays (env : NativeEnv) (song : Song) (s : PlayerState)
    (hunload : env.unloadOk = true) (hcreate : env.createOk = true) :
    (playSong env song s).state.currentSong = some song ∧
      (playSong env song s).state.isPlaying = true := by
  cases h : s.playbackInstance <;>
    simp [playSong, playSongLoad, h, hunload, hcreate]

/-- When the current song sits at (first) index `i` of the effective
playlist and the native calls succeed, playNextSong plays the entry at
the wrapped successor index. -/
theorem playNextSong_plays (env : NativeEnv) (s : PlayerState) (song : Song) (i : Nat)
    (hcur : s.currentSong = some song)
    (hfind : findSongIndex (getEffectivePlaylist s) song.id = some i)
    (hunload : env.unloadOk = true) (hcreate : env.createOk = true) :
    (playNextSong env s).state.currentSong =
      some ((getEffectivePlaylist s).getD
        ((i + 1) % (getEffectivePlaylist s).length) ⟨0, ""⟩) ∧
      (playNextSong env s).state.isPlaying = true := by
  have hidx := getCurrentSongIndex_of_find s song i hcur hfind
  have hne : (getEffectivePlaylist s).length ≠ 0 :=
    findSongIndex_some_ne_nil _ _ _ hfind
  have := playSong_plays env
    ((getEffectivePlaylist s).getD ((i + 1) % (getEffectivePlaylist s).length) ⟨0, ""⟩)
    s hunload hcreate
  simpa [playNextSong, hidx, hne] using this

/-- When the current song sits at (first) index `i` of the effective
playlist and the native calls succeed, playPreviousSong plays the entry
at the wrapped predecessor index. -/
theorem playPreviousSong_plays (env : NativeEnv) (s : PlayerState) (song : Song) (i : Nat)
    (hcur : s.currentSong = some song)
    (hfind : findSongIndex (getEffectivePlaylist s) song.id = some i)
    (hunload : env.unloadOk = true) (hcreate : env.createOk = true) :
    (playPreviousSong env s).state.currentSong =
      some ((getEffectivePlaylist s).getD
        ((i + (getEffectivePlaylist s).length - 1) % (getEffectivePlaylist s).length)
        ⟨0, ""⟩) ∧
      (playPreviousSong env s).state.isPlaying = true := by
  have hidx := getCurrentSongIndex_of_find s song i hcur hfind
  have hne : (getEffectivePlaylist s).length ≠ 0 :=
    findSongIndex_some_ne_nil _ _ _ hfind
  have := playSong_plays env
    ((getEffectivePlaylist s).getD
      ((i + (getEffectivePlaylist s).length - 1) % (getEffectivePlaylist s).length)
      ⟨0, ""⟩)
    s hunload hcreate
  simpa [playPreviousSong, hidx, hne] using this

/-- C1: when the effective playlist contains the current song at (first)
index `i`, playNextSong plays the song at index `(i + 1) % n` and
playPreviousSong the song at index `(i - 1 + n) % n` of the effective
playlist itself, where `n` is its length (assuming the native unload and
create calls succeed). -/
theorem playNext_playPrev_index_arith (env : NativeEnv) (s : PlayerState)
    (song : Song) (i : Nat)
    (hcur : s.currentSong = some song)
    (hfind : findSongIndex (getEffectivePlaylist s) song.id = some i)
    (hunload : env.unloadOk = true) (hcreate : env.createOk = true) :
    ((playNextSong env s).state.currentSong =
        some ((getEffectivePlaylist s).getD
          ((i + 1) % (getEffectivePlaylist s).length) ⟨0, ""⟩) ∧
      (playNextSong env s).state.isPlaying = true) ∧
    ((playPreviousSong env s).state.currentSong =
        some ((getEffectivePlaylist s).getD
          ((i + (getEffectivePlaylist s).length - 1) % (getEffectivePlaylist s).length)
          ⟨0, ""⟩) ∧
      (playPreviousSong env s).state.isPlaying = true) :=
  ⟨playNextSong_plays env s song i hcur hfind hunload hcreate,
    playPreviousSong_plays env s song i hcur hfind hunload hcreate⟩

/-- Witness for C1 at a concrete state: from song B of [A, B, C], next
plays C and previous plays A. -/
theorem playNext_playPrev_index_arith_witness :
    (playNextSong envOk sampleState).state.currentSong = some songC ∧
      (playPreviousSong envOk sampleState).state.currentSong = some songA := by
  have h := playNext_playPrev_index_arith envOk sampleState songB 1
    (by rfl) (by rfl) (by rfl) (by rfl)
  exact ⟨h.1.1, h.2.1⟩

/-- C5: with no current song, or a current song found in neither
playlist, or two empty playlists, both navigation calls return without
playing anything and leave the whole state unchanged. -/
theorem nav_noop_when_unresolved (env : NativeEnv) (s : PlayerState)
    (h : s.currentSong = none ∨
      (∃ song, s.currentSong = some song ∧ (∀ t ∈ s.playlist, t.id ≠ song.id) ∧
        ∀ t ∈ s.masterPlaylist, t.id ≠ song.id) ∨
      (s.playlist = [] ∧ s.masterPlaylist = [])) :
    playNextSong env s = { state := s, threw := false } ∧
      playPreviousSong env s = { state := s, threw := false } := by
  rcases h with h | h | ⟨hp, hm⟩
  · have hidx := getCurrentSongIndex_eq_none s (Or.inl h)
    constructor <;> simp [playNextSong, playPreviousSong, hidx]
  · have hidx := getCurrentSongIndex_eq_none s (Or.inr h)
    constructor <;> simp [playNextSong, playPreviousSong, hidx]
  · constructor <;> simp [playNextSong, playPreviousSong, getEffectivePlaylist, hp, hm]

/-- Witness for C5: navigation from the initial state (no current song,
empty playlists) is a no-op. -/
theorem nav_noop_when_unresolved_witness :
    playNextSong envOk initState = { state := initState, threw := false } ∧
      playPreviousSong envOk initState = { state := initState, threw := false } :=
  nav_noop_when_unresolved envOk initState (Or.inl (by rfl))

/-- C8 (amended shape shared with the claim): a stopSong call that does
not throw fully resets the playback state and leaves both playlists
untouched. -/
theorem stopSong_resets_state (env : NativeEnv) (s : PlayerState)
    (h : (stopSong env s).threw = false) :
    (stopSong env s).state.currentSong = none ∧
    (stopSong env s).state.isPlaying = false ∧
    (stopSong env s).state.position = 0 ∧
    (stopSong env s).state.duration = 0 ∧
    (stopSong env s).state.playbackInstance = none ∧
    (stopSong env s).state.playlist = s.playlist ∧
    (stopSong env s).state.masterPlaylist = s.masterPlaylist := by
  cases hpi : s.playbackInstance with
  | none => simp [stopSong, hpi]
  | some k =>
    cases e1 : env.stopOk <;> cases e2 : env.unloadOk <;>
      simp [stopSong, hpi, e1, e2] at h ⊢

/-- Witness for C8 at a concrete mid-playback state. -/
theorem stopSong_resets_state_witness :
    (stopSong envOk sampleState).state.currentSong = none ∧
    (stopSong envOk sampleState).state.isPlaying = false ∧
    (stopSong envOk sampleState).state.position = 0 ∧
    (stopSong envOk sampleState).state.duration = 0 ∧
    (stopSong envOk sampleState).state.playbackInstance = none ∧
    (stopSong envOk sampleState).state.playlist = sampleState.playlist ∧
    (stopSong envOk sampleState).state.masterPlaylist = sampleState.masterPlaylist :=
  stopSong_resets_state envOk sampleState (by rfl)

/-- C9: stopSongAndClear performs exactly the transition of stopSong and
in particular clears neither playlist. -/
theorem stopSongAndClear_eq_stopSong (env : NativeEnv) (s : PlayerState) :
    stopSongAndClear env s = stopSong env s ∧
      (stopSongAndClear env s).state.playlist = s.playlist ∧
      (stopSongAndClear env s).state.masterPlaylist = s.masterPlaylist := by
  refine ⟨rfl, ?_, ?_⟩ <;>
    cases hpi : s.playbackInstance <;>
      simp [stopSongAndClear, stopSong, hpi] <;> split_ifs <;> rfl

/-- C3 counterexample: after a successful playSong an instance is loaded,
and a seekTo whose native call fails propagates the error (`threw`),
refuting the claim that no playback operation ever does. -/
theorem seekTo_error_propagates_cex :
    (seekTo envSeekFail 1000 (run initState [Op.play envOk songA])).threw = true := by
  rfl

/-- C3 amended: playSong, pauseSong and resumeSong never propagate a
native failure, while seekTo and stopSong (which have no try/catch)
propagate one exactly when an instance exists and the corresponding
native call fails. -/
theorem error_propagation_profile (env : NativeEnv) (song : Song) (s : PlayerState)
    (p : Nat) :
    (playSong env song s).threw = false ∧
    (pauseSong env s).threw = false ∧
    (resumeSong env s).threw = false ∧
    ((seekTo env p s).threw = true ↔
      s.playbackInstance.isSome = true ∧ env.setPositionOk = false) ∧
    ((stopSong env s).threw = true ↔
      s.playbackInstance.isSome = true ∧ (env.stopOk = false ∨ env.unloadOk = false)) := by
  refine ⟨?_, rfl, rfl, ?_, ?_⟩
  · cases h : s.playbackInstance <;>
      simp [playSong, playSongLoad, h] <;> split_ifs <;> rfl
  · cases h : s.playbackInstance <;> cases e : env.setPositionOk <;>
      simp [seekTo, h, e]
  · cases h : s.playbackInstance <;> cases e1 : env.stopOk <;> cases e2 : env.unloadOk <;>
      simp [stopSong, h, e1, e2]

/-- C6: a loaded status with didJustFinish fires playNextSong, so when
the effective playlist contains the current song (and the native calls
succeed) the next song of that playlist starts playing; a status for an
unloaded instance changes nothing. -/
theorem status_autoadvance_spec :
    (∀ (env : NativeEnv) (st : AVPlaybackStatus) (s : PlayerState) (song : Song) (i : Nat),
      st.isLoaded = true → st.didJustFinish = true →
      s.currentSong = some song →
      findSongIndex (getEffectivePlaylist s) song.id = some i →
      env.unloadOk = true → env.createOk = true →
      (updatePlaybackStatus env st s).state.currentSong =
        some ((getEffectivePlaylist s).getD
          ((i + 1) % (getEffectivePlaylist s).length) ⟨0, ""⟩) ∧
      (updatePlaybackStatus env st s).state.isPlaying = true) ∧
    (∀ (env : NativeEnv) (st : AVPlaybackStatus) (s : PlayerState),
      st.isLoaded = false →
      updatePlaybackStatus env st s = { state := s, threw := false }) := by
  constructor
  · intro env st s song i hload hfin hcur hfind hunload hcreate
    have h1 : updatePlaybackStatus env st s =
        playNextSong env
          { s with
            isPlaying := st.isPlaying
            duration := st.durationMillis.getD 0
            position := st.positionMillis } := by
      simp [updatePlaybackStatus, hload, hfin]
    rw [h1]
    exact playNextSong_plays env _ song i hcur hfind hunload hcreate
  · intro env st s hload
    simp [updatePlaybackStatus, hload]

/-- Witness for C6: from song B of [A, B, C], a finished status advances
to song C, and an unloaded status is a no-op. -/
theorem status_autoadvance_spec_witness :
    ((updatePlaybackStatus envOk finishedStatus sampleState).state.currentSong =
        some songC ∧
      (updatePlaybackStatus envOk finishedStatus sampleState).state.isPlaying = true) ∧
    updatePlaybackStatus envOk unloadedStatus sampleState =
      { state := sampleState, threw := false } := by
  constructor
  · have h := status_autoadvance_spec.1 envOk finishedStatus sampleState songB 1
      (by rfl) (by rfl) (by rfl) (by rfl) (by rfl) (by rfl)
    exact h
  · exact status_autoadvance_spec.2 envOk unloadedStatus sampleState (by rfl)

/-- One step keeps position within duration, given a bounded status. -/
theorem step_preserves_bound (s : PlayerState) (op : Op)
    (hs : s.position ≤ s.duration) (hop : statusBounded op) :
    (step s op).position ≤ (step s op).duration := by
  cases op with
  | play env song =>
    have h := playSong_position_duration env song s
    simpa [step, h.1, h.2] using hs
  | pause env => simpa [step, pauseSong] using hs
  | resume env => simpa [step, resumeSong] using hs
  | seek env p =>
    cases hpi : s.playbackInstance <;> cases e : env.setPositionOk <;>
      simpa [step, seekTo, hpi, e] using hs
  | next env =>
    have h := playNextSong_position_duration env s
    simpa [step, h.1, h.2] using hs
  | prev env =>
    have h := playPreviousSong_position_duration env s
    simpa [step, h.1, h.2] using hs
  | stop env =>
    cases hpi : s.playbackInstance <;>
      simp [step, stopSong, hpi]
    split_ifs
    · simp
    · exact hs
  | stopClear env =>
    cases hpi : s.playbackInstance <;>
      simp [step, stopSongAndClear, stopSong, hpi]
    split_ifs
    · simp
    · exact hs
  | setPl songs => simpa [step, setPlaylistWithMaster] using hs
  | status env st =>
    by_cases hl : st.isLoaded = true
    · have hb : st.positionMillis ≤ st.durationMillis.getD 0 := hop hl
      by_cases hf : st.didJustFinish = true
      · have h := playNextSong_position_duration env
          { s with
            isPlaying := st.isPlaying
            duration := st.durationMillis.getD 0
            position := st.positionMillis }
        simpa [step, updatePlaybackStatus, hl, hf, h.1, h.2] using hb
      · simpa [step, updatePlaybackStatus, hl, hf] using hb
    · simpa [step, updatePlaybackStatus, hl] using hs

/-- A run from a bounded state stays bounded when all statuses are. -/
theorem run_preserves_bound (ops : List Op) (s : PlayerState)
    (hs : s.position ≤ s.duration) (hops : ∀ op ∈ ops, statusBounded op) :
    (run s ops).position ≤ (run s ops).duration := by
  induction ops generalizing s with
  | nil => simpa [run] using hs
  | cons op ops ih =>
    simp only [run]
    exact ih (step s op)
      (step_preserves_bound s op hs (hops op (by simp)))
      (fun o ho => hops o (by simp [ho]))

/-- C2 counterexample: a loaded status whose durationMillis is absent
(read as 0) and whose position is positive is copied unchecked, so the
reachable state after it violates position ≤ duration. -/
theorem position_invariant_cex :
    ¬ ((run initState [Op.status envOk overrunStatus]).position ≤
        (run initState [Op.status envOk overrunStatus]).duration) := by
  decide

/-- C2 amended: in every state reachable by operations whose status
payloads are in bounds (a loaded status reports positionMillis ≤
durationMillis, with an absent duration read as 0), the position field
satisfies 0 ≤ position ≤ duration. -/
theorem position_le_duration_of_bounded_status (ops : List Op)
    (hops : ∀ op ∈ ops, statusBounded op) :
    0 ≤ (run initState ops).position ∧
      (run initState ops).position ≤ (run initState ops).duration :=
  ⟨Nat.zero_le _, run_preserves_bound ops initState (Nat.le_refl 0) hops⟩

/-- Witness for C2 (amended) on a concrete bounded trace. -/
theorem position_le_duration_of_bounded_status_witness :
    0 ≤ (run initState [Op.status envOk boundedStatus]).position ∧
      (run initState [Op.status envOk boundedStatus]).position ≤
        (run initState [Op.status envOk boundedStatus]).duration :=
  position_le_duration_of_bounded_status [Op.status envOk boundedStatus] (by decide)

/-- The initial state satisfies the handle invariant. -/
theorem handleInv_init : handleInv initState := by
  constructor
  · simp [initState]
  · intro h hm
    simp [initState] at hm

/-- Under the invariant each loaded handle is the held one, so the loaded
set is empty when no instance is held. -/
theorem loaded_nil_of_none (s : PlayerState)
    (hinv : handleInv s) (hpi : s.playbackInstance = none) :
    s.loaded = [] := by
  obtain ⟨hlen, hall⟩ := hinv
  cases hl : s.loaded with
  | nil => rfl
  | cons a l =>
    have ha := hall a (by simp [hl])
    rw [hpi] at ha
    simp at ha

/-- Under the invariant, erasing the held handle empties the loaded set. -/
theorem loaded_erase_of_handleInv (s : PlayerState) (k : Nat)
    (hinv : handleInv s) (hpi : s.playbackInstance = some k) :
    s.loaded.erase k = [] := by
  obtain ⟨hlen, hall⟩ := hinv
  cases hl : s.loaded with
  | nil => simp
  | cons a l =>
    cases l with
    | nil =>
      have ha := hall a (by simp [hl])
      rw [hpi] at ha
      have hka : k = a := Option.some.inj ha
      subst hka
      simp
    | cons b l2 =>
      rw [hl] at hlen
      simp at hlen

/-- playSongLoad keeps the handle invariant when it starts with no loaded
handle. -/
theorem playSongLoad_handleInv (env : NativeEnv) (song : Song) (s : PlayerState)
    (hl : s.loaded = []) : handleInv (playSongLoad env song s).state := by
  cases e : env.createOk
  · constructor
    · simp [e, hl]
    · intro h hm
      simp [e, hl] at hm
  · constructor
    · simp [e, hl]
    · intro h hm
      simp [e, hl] at hm
      subst hm
      simp [e]

/-- playSong preserves the handle invariant: it erases the held handle
before loading a fresh one. -/
theorem playSong_handleInv (env : NativeEnv) (song : Song) (s : PlayerState)
    (hinv : handleInv s) : handleInv (playSong env song s).state := by
  cases hpi : s.playbackInstance with
  | none =>
    have hl := loaded_nil_of_none s hinv hpi
    simpa [playSong, hpi] using playSongLoad_handleInv env song s hl
  | some k =>
    cases e : env.unloadOk
    · simpa [playSong, hpi, e] using hinv
    · have he := loaded_erase_of_handleInv s k hinv hpi
      have h2 := playSongLoad_handleInv env song { s with loaded := s.loaded.erase k }
        (by simpa using he)
      simpa [playSong, hpi, e] using h2

/-- playNextSong preserves the handle invariant. -/
theorem playNextSong_handleInv (env : NativeEnv) (s : PlayerState)
    (hinv : handleInv s) : handleInv (playNextSong env s).state := by
  by_cases h : (getEffectivePlaylist s).length = 0
  · simpa [playNextSong, h] using hinv
  · cases hidx : getCurrentSongIndex s with
    | none => simpa [playNextSong, h, hidx] using hinv
    | some i => simpa [playNextSong, h, hidx] using playSong_handleInv env _ s hinv

/-- playPreviousSong preserves the handle invariant. -/
theorem playPreviousSong_handleInv (env : NativeEnv) (s : PlayerState)
    (hinv : handleInv s) : handleInv (playPreviousSong env s).state := by
  by_cases h : (getEffectivePlaylist s).length = 0
  · simpa [playPreviousSong, h] using hinv
  · cases hidx : getCurrentSongIndex s with
    | none => simpa [playPreviousSong, h, hidx] using hinv
    | some i => simpa [playPreviousSong, h, hidx] using playSong_handleInv env _ s hinv

/-- stopSong preserves the handle invariant. -/
theorem stopSong_handleInv (env : NativeEnv) (s : PlayerState)
    (hinv : handleInv s) : handleInv (stopSong env s).state := by
  cases hpi : s.playbackInstance with
  | none =>
    have hl := loaded_nil_of_none s hinv hpi
    constructor
    · simp [stopSong, hpi, hl]
    · intro h hm
      simp [stopSong, hpi, hl] at hm
  | some k =>
    cases e1 : env.stopOk <;> cases e2 : env.unloadOk
    · simpa [stopSong, hpi, e1, e2] using hinv
    · simpa [stopSong, hpi, e1, e2] using hinv
    · simpa [stopSong, hpi, e1, e2] using hinv
    · have he := loaded_erase_of_handleInv s k hinv hpi
      constructor
      · simp [stopSong, hpi, e1, e2, he]
      · intro h hm
        simp [stopSong, hpi, e1, e2, he] at hm

/-- Every operation preserves the handle invariant. -/
theorem step_handleInv (s : PlayerState) (op : Op) (hinv : handleInv s) :
    handleInv (step s op) := by
  cases op with
  | play env song => exact playSong_handleInv env song s hinv
  | pause env => exact hinv
  | resume env => exact hinv
  | seek env p =>
    cases hpi : s.playbackInstance <;> cases e : env.setPositionOk <;>
      simpa [step, seekTo, hpi, e] using hinv
  | next env => exact playNextSong_handleInv env s hinv
  | prev env => exact playPreviousSong_handleInv env s hinv
  | stop env => exact stopSong_handleInv env s hinv
  | stopClear env => exact stopSong_handleInv env s hinv
  | setPl songs =>
    obtain ⟨hlen, hall⟩ := hinv
    constructor
    · simpa [step, setPlaylistWithMaster] using hlen
    · intro h hm
      simp [step, setPlaylistWithMaster] at hm ⊢
      exact hall h hm
  | status env st =>
    by_cases hl : st.isLoaded = true
    · by_cases hf : st.didJustFinish = true
      · have h2 := playNextSong_handleInv env
          { s with
            isPlaying := st.isPlaying
            duration := st.durationMillis.getD 0
            position := st.positionMillis } hinv
        simpa [step, updatePlaybackStatus, hl, hf] using h2
      · simpa [step, updatePlaybackStatus, hl, hf] using hinv
    · simpa [step, updatePlaybackStatus, hl] using hinv

/-- Reachable states satisfy the handle invariant. -/
theorem run_handleInv (ops : List Op) (s : PlayerState) (hinv : handleInv s) :
    handleInv (run s ops) := by
  induction ops generalizing s with
  | nil => simpa [run] using hinv
  | cons op ops ih => exact ih (step s op) (step_handleInv s op hinv)

/-- C7: playSong releases the previous native handle before acquiring
the next one and stopSong releases it as well, so no reachable state
holds two loaded native handles. -/
theorem at_most_one_loaded_handle (ops : List Op) :
    (run initState ops).loaded.length ≤ 1 :=
  (run_handleInv ops initState handleInv_init).1

/-- Folding the last non-empty list distributes over append. -/
theorem lastNonEmptyFrom_append (acc : List Song) (ls1 ls2 : List (List Song)) :
    lastNonEmptyFrom acc (ls1 ++ ls2) =
      lastNonEmptyFrom (lastNonEmptyFrom acc ls1) ls2 := by
  simp [lastNonEmptyFrom, List.foldl_append]

/-- playSong never changes the master playlist. -/
theorem playSong_masterPlaylist (env : NativeEnv) (song : Song) (s : PlayerState) :
    (playSong env song s).state.masterPlaylist = s.masterPlaylist := by
  cases hpi : s.playbackInstance <;> simp [playSong, hpi]
  split_ifs <;> simp

/-- Folding at most one copy of the accumulator itself leaves it
fixed. -/
theorem lastNonEmptyFrom_single_self (m : List Song) (c : Prop) [Decidable c] :
    lastNonEmptyFrom m (if c then [m] else []) = m := by
  split_ifs <;> simp [lastNonEmptyFrom]

/-- The playlist values playSong assigns keep the running last non-empty
list fixed: it only ever re-assigns the master playlist itself. -/
theorem lastNonEmptyFrom_playSongAssigned (env : NativeEnv) (s : PlayerState) :
    lastNonEmptyFrom s.masterPlaylist (playSongAssigned env s) = s.masterPlaylist := by
  cases hpi : s.playbackInstance with
  | none =>
    have h : playSongAssigned env s =
        (if s.playlist.length = 0 ∧ s.masterPlaylist.length > 0
          then [s.masterPlaylist] else []) := by
      simp [playSongAssigned, hpi]
    rw [h]
    exact lastNonEmptyFrom_single_self s.masterPlaylist _
  | some k =>
    cases e : env.unloadOk with
    | true =>
      have h : playSongAssigned env s =
          (if s.playlist.length = 0 ∧ s.masterPlaylist.length > 0
            then [s.masterPlaylist] else []) := by
        simp [playSongAssigned, hpi, e]
      rw [h]
      exact lastNonEmptyFrom_single_self s.masterPlaylist _
    | false =>
      have h : playSongAssigned env s = [] := by
        simp [playSongAssigned, hpi, e]
      rw [h]
      simp [lastNonEmptyFrom]

/-- playSong's master playlist equals the fold of its assignments. -/
theorem playSong_master_assigned (env : NativeEnv) (song : Song) (s : PlayerState) :
    (playSong env song s).state.masterPlaylist =
      lastNonEmptyFrom s.masterPlaylist (playSongAssigned env s) := by
  rw [playSong_masterPlaylist, lastNonEmptyFrom_playSongAssigned]

/-- playNextSong's master playlist equals the fold of its assignments. -/
theorem playNextSong_master_assigned (env : NativeEnv) (s : PlayerState) :
    (playNextSong env s).state.masterPlaylist =
      lastNonEmptyFrom s.masterPlaylist (navAssigned env s) := by
  by_cases h : (getEffectivePlaylist s).length = 0
  · simp [playNextSong, navAssigned, h, lastNonEmptyFrom]
  · cases hidx : getCurrentSongIndex s with
    | none => simp [playNextSong, navAssigned, h, hidx, lastNonEmptyFrom]
    | some i =>
      simp only [playNextSong, navAssigned, h, hidx, if_neg h]
      exact playSong_master_assigned env _ s

/-- playPreviousSong's master playlist equals the fold of its
assignments. -/
theorem playPreviousSong_master_assigned (env : NativeEnv) (s : PlayerState) :
    (playPreviousSong env s).state.masterPlaylist =
      lastNonEmptyFrom s.masterPlaylist (navAssigned env s) := by
  by_cases h : (getEffectivePlaylist s).length = 0
  · simp [playPreviousSong, navAssigned, h, lastNonEmptyFrom]
  · cases hidx : getCurrentSongIndex s with
    | none => simp [playPreviousSong, navAssigned, h, hidx, lastNonEmptyFrom]
    | some i =>
      simp only [playPreviousSong, navAssigned, h, hidx, if_neg h]
      exact playSong_master_assigned env _ s

/-- Per step, the master playlist is the fold of the step's playlist
assignments over the previous master playlist. -/
theorem step_master (s : PlayerState) (op : Op) :
    (step s op).masterPlaylist =
      lastNonEmptyFrom s.masterPlaylist (assignedPlaylists s op) := by
  cases op with
  | play env song =>
    simpa [step, assignedPlaylists] using playSong_master_assigned env song s
  | pause env => simp [step, pauseSong, assignedPlaylists, lastNonEmptyFrom]
  | resume env => simp [step, resumeSong, assignedPlaylists, lastNonEmptyFrom]
  | seek env p =>
    cases hpi : s.playbackInstance <;> cases e : env.setPositionOk <;>
      simp [step, seekTo, hpi, e, assignedPlaylists, lastNonEmptyFrom]
  | next env =>
    simpa [step, assignedPlaylists] using playNextSong_master_assigned env s
  | prev env =>
    simpa [step, assignedPlaylists] using playPreviousSong_master_assigned env s
  | stop env =>
    cases hpi : s.playbackInstance <;>
      simp [step, stopSong, hpi, assignedPlaylists, lastNonEmptyFrom]
    split_ifs <;> simp
  | stopClear env =>
    cases hpi : s.playbackInstance <;>
      simp [step, stopSongAndClear, stopSong, hpi, assignedPlaylists, lastNonEmptyFrom]
    split_ifs <;> simp
  | setPl songs =>
    simp [step, setPlaylistWithMaster, assignedPlaylists, lastNonEmptyFrom]
  | status env st =>
    by_cases hl : st.isLoaded = true
    · by_cases hf : st.didJustFinish = true
      · have h2 := playNextSong_master_assigned env
          { s with
            isPlaying := st.isPlaying
            duration := st.durationMillis.getD 0
            position := st.positionMillis }
        simpa [step, updatePlaybackStatus, assignedPlaylists, hl, hf] using h2
      · simp [step, updatePlaybackStatus, assignedPlaylists, hl, hf, lastNonEmptyFrom]
    · simp [step, updatePlaybackStatus, assignedPlaylists, hl, lastNonEmptyFrom]

/-- Over a whole run, the master playlist is the fold of all playlist
assignments over the starting master playlist. -/
theorem run_master (ops : List Op) (s : PlayerState) :
    (run s ops).masterPlaylist =
      lastNonEmptyFrom s.masterPlaylist (assignedAll s ops) := by
  induction ops generalizing s with
  | nil => simp [run, assignedAll, lastNonEmptyFrom]
  | cons op ops ih =>
    simp only [run, assignedAll, lastNonEmptyFrom_append]
    rw [ih (step s op), step_master]

/-- Clearing the playlist does not change the effective playlist. -/
theorem getEffectivePlaylist_clear (s : PlayerState) (hp : s.playlist = []) :
    getEffectivePlaylist { s with playlist := s.masterPlaylist } =
      getEffectivePlaylist s := by
  cases hm : s.masterPlaylist <;> simp [getEffectivePlaylist, hp, hm]

/-- Clearing the playlist does not change the resolved current index. -/
theorem getCurrentSongIndex_clear (s : PlayerState) (hp : s.playlist = []) :
    getCurrentSongIndex { s with playlist := s.masterPlaylist } =
      getCurrentSongIndex s := by
  cases hc : s.currentSong with
  | none => simp [getCurrentSongIndex, hc]
  | some cur =>
    cases hm : s.masterPlaylist with
    | nil => simp [getCurrentSongIndex, hc, hp, hm]
    | cons a l =>
      cases hf : findSongIndex (a :: l) cur.id with
      | none => simp [getCurrentSongIndex, hc, hp, hm, hf]
      | some j => simp [getCurrentSongIndex, hc, hp, hm, hf]

/-- The current song and playing flag produced by playSong do not depend
on the playlists of the pre-state. -/
theorem playSong_currentSong_isPlaying_congr (env : NativeEnv) (song : Song)
    (s1 s2 : PlayerState)
    (h1 : s1.playbackInstance = s2.playbackInstance)
    (h2 : s1.currentSong = s2.currentSong)
    (h3 : s1.isPlaying = s2.isPlaying) :
    (playSong env song s1).state.currentSong =
        (playSong env song s2).state.currentSong ∧
      (playSong env song s1).state.isPlaying =
        (playSong env song s2).state.isPlaying := by
  cases hpi : s2.playbackInstance with
  | none =>
    have hpi1 : s1.playbackInstance = none := by rw [h1, hpi]
    simp [playSong, hpi, hpi1, h2, h3]
  | some k =>
    have hpi1 : s1.playbackInstance = some k := by rw [h1, hpi]
    cases e : env.unloadOk <;> simp [playSong, hpi, hpi1, e, h2, h3]

/-- After the playlist is cleared, playNextSong selects and plays the
same song it would with the master playlist as the active playlist. -/
theorem playNextSong_after_clear (env : NativeEnv) (s : PlayerState)
    (hp : s.playlist = []) :
    (playNextSong env s).state.currentSong =
        (playNextSong env { s with playlist := s.masterPlaylist }).state.currentSong ∧
      (playNextSong env s).state.isPlaying =
        (playNextSong env { s with playlist := s.masterPlaylist }).state.isPlaying := by
  have heff := getEffectivePlaylist_clear s hp
  have hidx := getCurrentSongIndex_clear s hp
  by_cases hz : (getEffectivePlaylist s).length = 0
  · simp [playNextSong, heff, hidx, hz]
  · cases hi : getCurrentSongIndex s with
    | none => simp [playNextSong, heff, hidx, hz, hi]
    | some i =>
      have hc := playSong_currentSong_isPlaying_congr env
        ((getEffectivePlaylist s).getD ((i + 1) % (getEffectivePlaylist s).length) ⟨0, ""⟩)
        s { s with playlist := s.masterPlaylist } rfl rfl rfl
      simpa [playNextSong, heff, hidx, hz, hi] using hc

/-- After the playlist is cleared, playPreviousSong selects and plays the
same song it would with the master playlist as the active playlist. -/
theorem playPreviousSong_after_clear (env : NativeEnv) (s : PlayerState)
    (hp : s.playlist = []) :
    (playPreviousSong env s).state.currentSong =
        (playPreviousSong env { s with playlist := s.masterPlaylist }).state.currentSong ∧
      (playPreviousSong env s).state.isPlaying =
        (playPreviousSong env { s with playlist := s.masterPlaylist }).state.isPlaying := by
  have heff := getEffectivePlaylist_clear s hp
  have hidx := getCurrentSongIndex_clear s hp
  by_cases hz : (getEffectivePlaylist s).length = 0
  · simp [playPreviousSong, heff, hidx, hz]
  · cases hi : getCurrentSongIndex s with
    | none => simp [playPreviousSong, heff, hidx, hz, hi]
    | some i =>
      have hc := playSong_currentSong_isPlaying_congr env
        ((getEffectivePlaylist s).getD
          ((i + (getEffectivePlaylist s).length - 1) % (getEffectivePlaylist s).length)
          ⟨0, ""⟩)
        s { s with playlist := s.masterPlaylist } rfl rfl rfl
      simpa [playPreviousSong, heff, hidx, hz, hi] using hc

/-- C4: in every reachable state the master playlist is the last
non-empty list ever assigned to the active playlist (and empty when no
non-empty list ever was), and once the active playlist is cleared both
navigation calls select and play their song exactly as they would with
that last non-empty (master) playlist active. -/
theorem masterPlaylist_last_nonempty_and_fallback_nav (ops : List Op)
    (env : NativeEnv) (s : PlayerState) :
    ((run initState ops).masterPlaylist =
      lastNonEmptyFrom [] (assignedAll initState ops)) ∧
    (s.playlist = [] →
      ((playNextSong env s).state.currentSong =
          (playNextSong env { s with playlist := s.masterPlaylist }).state.currentSong ∧
        (playNextSong env s).state.isPlaying =
          (playNextSong env { s with playlist := s.masterPlaylist }).state.isPlaying) ∧
      ((playPreviousSong env s).state.currentSong =
          (playPreviousSong env
            { s with playlist := s.masterPlaylist }).state.currentSong ∧
        (playPreviousSong env s).state.isPlaying =
          (playPreviousSong env
            { s with playlist := s.masterPlaylist }).state.isPlaying)) := by
  constructor
  · simpa [initState] using run_master ops initState
  · intro hp
    exact ⟨playNextSong_after_clear env s hp, playPreviousSong_after_clear env s hp⟩

/-- Witness for C4: a run that sets [A] and then clears, and fallback
navigation from a concrete cleared state. -/
theorem masterPlaylist_last_nonempty_and_fallback_nav_witness :
    ((run initState [Op.setPl [songA], Op.setPl []]).masterPlaylist =
      lastNonEmptyFrom [] (assignedAll initState [Op.setPl [songA], Op.setPl []])) ∧
    ((playNextSong envOk clearedState).state.currentSong =
        (playNextSong envOk
          { clearedState with
            playlist := clearedState.masterPlaylist }).state.currentSong ∧
      (playNextSong envOk clearedState).state.isPlaying =
        (playNextSong envOk
          { clearedState with
            playlist := clearedState.masterPlaylist }).state.isPlaying) ∧
    ((playPreviousSong envOk clearedState).state.currentSong =
        (playPreviousSong envOk
          { clearedState with
            playlist := clearedState.masterPlaylist }).state.currentSong ∧
      (playPreviousSong envOk clearedState).state.isPlaying =
        (playPreviousSong envOk
          { clearedState with
            playlist := clearedState.masterPlaylist }).state.isPlaying) := by
  have h := masterPlaylist_last_nonempty_and_fallback_nav
    [Op.setPl [songA], Op.setPl []] envOk clearedState
  exact ⟨h.1, h.2 (by rfl)⟩

/-- C10: the mini player is rendered exactly when a current song exists
and the active route is not the player screen. -/
theorem miniPlayer_visibility_iff (cs : Option Song) (route : String) :
    miniPlayerVisible cs route = true ↔ cs ≠ none ∧ route ≠ "/player" := by
  cases cs <;> simp [miniPlayerVisible]

end Theorems

end AudioPlayer
